import Mathlib

/-
Verification of the sportsclaw relay server (src/docker/relay/relay_server.py)
against its natural-language specification.  The handlers query_stream and
query_sync, and the helpers _build_cmd and _build_env, are embedded as pure
Lean functions; subprocess behaviour (the lines the child writes, its exit
status, timeouts, disconnects, spawn failures) is the input of each model,
and the observable outputs (events written to the transport, process kills,
HTTP responses, uncaught Python exceptions) are the result.
-/

namespace Relay

/-- JSON values as handled by the Python json module: null, booleans,
numbers (integral in this development), strings, arrays and objects.
Object fields keep insertion order, as Python dicts do. -/
inductive JVal where
  | jnull
  | jbool (b : Bool)
  | jnum (n : Int)
  | jstr (s : String)
  | jarr (elems : List JVal)
  | jobj (fields : List (String × JVal))

/-- Python truthiness of a JSON value (bool() semantics). -/
def pyTruthy : JVal → Bool
  | .jnull => false
  | .jbool b => b
  | .jnum n => n != 0
  | .jstr s => s != ""
  | .jarr elems => !elems.isEmpty
  | .jobj fields => !fields.isEmpty

/-- Python dict lookup on an insertion-ordered association list. -/
def getField : List (String × JVal) → String → Option JVal
  | [], _ => none
  | (k, v) :: rest, key => if k = key then some v else getField rest key

/-- Python dict assignment: replace the value in place if the key exists,
otherwise append the new binding. -/
def setField : List (String × JVal) → String → JVal → List (String × JVal)
  | [], key, v => [(key, v)]
  | (k, w) :: rest, key, v =>
      if k = key then (k, v) :: rest else (k, w) :: setField rest key v

/-- Python dict.get with a default. -/
def fieldD (fields : List (String × JVal)) (key : String) (dflt : JVal) : JVal :=
  (getField fields key).getD dflt

/-- Whether a JSON value is an object containing the given key. -/
def jHasField : JVal → String → Bool
  | .jobj fields, key => (getField fields key).isSome
  | _, _ => false

/-- The Python test event.get("type") == s on an object event. -/
def isType (fields : List (String × JVal)) (s : String) : Bool :=
  match getField fields "type" with
  | some (.jstr t) => t == s
  | _ => false

/-- A JSON value stored in a Python variable that is later compared against
None: a JSON null becomes Python None, i.e. the unset state. -/
def pyOpt : JVal → Option JVal
  | .jnull => none
  | v => some v

/-- The Python exceptions that can escape the request handlers in the
source. -/
inductive PyExn where
  | fileNotFound
  | typeError
  | attributeError
deriving DecidableEq

/-- One line of child stdout after the mode-specific stripping, together
with the verdict of Python json.loads on that text: some v when the text
parses to the JSON value v, none when json.loads raises JSONDecodeError.
The JSON parser is the external standard library, so its verdict is part
of the model input. -/
structure RawLine where
  text : String
  parse : Option JVal

/-- relay_server.py lines 162-165: a line that fails JSON parsing is
wrapped as a debug event carrying the raw text. -/
def debugEvent (s : String) : JVal :=
  .jobj [("type", .jstr "debug"), ("text", .jstr s)]

/-- relay_server.py line 159: user_id is injected into a parsed object
event before it is forwarded. -/
def injectUser (fields : List (String × JVal)) (uid : String) : JVal :=
  .jobj (setField fields "user_id" (.jstr uid))

/-- The Python expression stderr_text or f-string "Exit code N". -/
def exitMsg (stderrText : String) (rc : Int) : String :=
  if stderrText = "" then "Exit code " ++ toString rc else stderrText

/-- relay_server.py lines 174-178: the error event synthesized after a
non-zero exit status. -/
def synthError (stderrText : String) (rc : Int) : JVal :=
  .jobj [("type", .jstr "error"), ("error", .jstr (exitMsg stderrText rc)),
         ("returncode", .jnum rc)]

/-- The message "Query timed out after Ns". -/
def timeoutMsg (t : Int) : String :=
  "Query timed out after " ++ toString t ++ "s"

/-- relay_server.py lines 182-185: the error event written after a timeout
in streaming mode. -/
def timeoutEvent (t : Int) : JVal :=
  .jobj [("type", .jstr "error"), ("error", .jstr (timeoutMsg t))]

/-- relay_server.py lines 151-165 (stream_stdout): the events produced for
the given stdout lines, in order, together with the uncaught exception, if
any, that aborts the loop.  An empty line yields nothing; a line that fails
JSON parsing yields a debug wrap (the JSONDecodeError clause); a parsed
object gets user_id injected; a parsed non-object value makes the item
assignment on line 159 raise TypeError, which no clause catches, so the
loop stops and the exception escapes. -/
def relayEvents (uid : String) : List RawLine → List JVal × Option PyExn
  | [] => ([], none)
  | l :: ls =>
      if l.text = "" then relayEvents uid ls
      else
        match l.parse with
        | none =>
            let r := relayEvents uid ls
            (debugEvent l.text :: r.1, r.2)
        | some (.jobj fields) =>
            let r := relayEvents uid ls
            (injectUser fields uid :: r.1, r.2)
        | some _ => ([], some .typeError)

/-- Observable operations the streaming handler performs once the response
is prepared: a write of one NDJSON event to the transport, the final
write_eof on the transport, or a kill of the child process. -/
inductive Action where
  | write (ev : JVal)
  | kill
  | writeEof

/-- Whether an action touches the HTTP transport. -/
def Action.isTransportOp : Action → Bool
  | .write _ => true
  | .writeEof => true
  | .kill => false

/-- How the environment behaves for one streaming request, an input of the
model: the spawn fails with the given exception; or stdout yields the given
lines and the process exits with the given status and residual stderr text;
or the overall timeout expires after the given lines were relayed; or the
client disconnects so that the write of event number k (0-based) raises
ConnectionResetError. -/
inductive StreamScenario where
  | spawnFail (e : PyExn)
  | complete (lines : List RawLine) (returncode : Int) (stderrText : String)
  | timeoutAfter (lines : List RawLine)
  | disconnectAt (k : Nat) (lines : List RawLine)

/-- relay_server.py lines 143-190 (query_stream) after the 200 response is
prepared: the sequence of transport and process actions, and the exception,
if any, escaping the handler.  Source facts embedded here: the synthesized
terminal error (lines 171-178) is written whenever returncode is non-zero,
with no check for an earlier error event; a spawn failure (line 144)
matches no except clause, so nothing is written and write_eof (line 189) is
skipped; on timeout (lines 180-185) the child is killed and a timeout error
event is written, then write_eof runs; on disconnect (lines 186-187) the
child is killed and control falls through to write_eof. -/
def query_stream (uid : String) (timeout : Int) : StreamScenario → List Action × Option PyExn
  | .spawnFail e => ([], some e)
  | .complete lines rc serr =>
      let r := relayEvents uid lines
      match r.2 with
      | some ex => (r.1.map Action.write, some ex)
      | none =>
          if rc ≠ 0 then
            (r.1.map Action.write ++ [Action.write (synthError serr rc), Action.writeEof], none)
          else (r.1.map Action.write ++ [Action.writeEof], none)
  | .timeoutAfter lines =>
      let r := relayEvents uid lines
      match r.2 with
      | some ex => (r.1.map Action.write, some ex)
      | none =>
          (r.1.map Action.write ++
            [Action.kill, Action.write (timeoutEvent timeout), Action.writeEof], none)
  | .disconnectAt k lines =>
      let r := relayEvents uid lines
      if k < r.1.length then
        ((r.1.take k).map Action.write ++ [Action.kill, Action.writeEof], none)
      else (r.1.map Action.write, r.2)

/-- relay_server.py lines 237-248: the parse loop over stdout lines,
carrying the Python variables result_text and error_text (Python None is
modelled as none).  A result event stores event.get("text", ""), an error
event stores event.get("error", "Unknown error"); a JSON null stored this
way is Python None.  A line parsing to a non-object raises AttributeError
at event.get, which the loop's json.JSONDecodeError clause cannot catch. -/
def scanLinesAux : Option JVal → Option JVal → List RawLine → Except PyExn (Option JVal × Option JVal)
  | rt, et, [] => .ok (rt, et)
  | rt, et, l :: ls =>
      if l.text = "" then scanLinesAux rt et ls
      else
        match l.parse with
        | none => scanLinesAux rt et ls
        | some (.jobj fields) =>
            if isType fields "result" then
              scanLinesAux (pyOpt (fieldD fields "text" (.jstr ""))) et ls
            else if isType fields "error" then
              scanLinesAux rt (pyOpt (fieldD fields "error" (.jstr "Unknown error"))) ls
            else scanLinesAux rt et ls
        | some _ => .error .attributeError

/-- The parse loop started with both variables at Python None. -/
def scanLines (lines : List RawLine) : Except PyExn (Option JVal × Option JVal) :=
  scanLinesAux none none lines

/-- An aiohttp json_response: HTTP status plus JSON body. -/
structure HttpResponse where
  status : Nat
  body : JVal

/-- Python truthiness of a variable that may be None. -/
def truthyOpt : Option JVal → Bool
  | none => false
  | some v => pyTruthy v

/-- relay_server.py lines 250-281: the reduction of the scanned result_text
and error_text, the exit status and the raw texts to the terminal response.
The four branches of the source, in order: truthy error_text gives 500;
result_text is not None gives 200; zero-exit fallback gives 200 with the
raw stdout text; non-zero-exit fallback gives 500 with stderr text or an
exit-code message, plus stdout and returncode but no user_id field. -/
def reduceToResponse (uid : String) (elapsedMs : Int) (stdoutText stderrText : String)
    (rc : Int) (rt et : Option JVal) : HttpResponse :=
  if truthyOpt et then
    ⟨500, .jobj [("status", .jbool false), ("error", et.getD .jnull),
                 ("user_id", .jstr uid), ("elapsed_ms", .jnum elapsedMs)]⟩
  else if rt.isSome then
    ⟨200, .jobj [("status", .jbool true), ("text", rt.getD .jnull),
                 ("user_id", .jstr uid), ("elapsed_ms", .jnum elapsedMs)]⟩
  else if rc = 0 then
    ⟨200, .jobj [("status", .jbool true), ("text", .jstr stdoutText),
                 ("user_id", .jstr uid), ("elapsed_ms", .jnum elapsedMs)]⟩
  else
    ⟨500, .jobj [("status", .jbool false), ("error", .jstr (exitMsg stderrText rc)),
                 ("stdout", .jstr stdoutText), ("returncode", .jnum rc),
                 ("elapsed_ms", .jnum elapsedMs)]⟩

/-- How the environment behaves for one sync request: the spawn fails, the
communicate() call times out, or the child completes with the given full
stdout text, its stripped lines, stderr text and exit status. -/
inductive SyncOutcome where
  | spawnFail (e : PyExn)
  | timeout
  | completed (stdoutText : String) (lines : List RawLine) (stderrText : String) (returncode : Int)

/-- Result of the sync handler: the response, or the exception escaping the
handler, together with the process-management actions performed after the
spawn.  The source query_sync contains no kill call on any path, so the
action list is empty in every branch. -/
structure SyncRun where
  response : Except PyExn HttpResponse
  actions : List Action

/-- relay_server.py lines 219-287 (query_sync): on timeout the except
clause at lines 283-287 returns 504 with only status and error fields and
performs no kill; a spawn failure matches no except clause and escapes; on
completion the parse loop runs and the reduction builds the response. -/
def query_sync (uid : String) (timeout elapsedMs : Int) : SyncOutcome → SyncRun
  | .spawnFail e => ⟨.error e, []⟩
  | .timeout =>
      ⟨.ok ⟨504, .jobj [("status", .jbool false), ("error", .jstr (timeoutMsg timeout))]⟩, []⟩
  | .completed st lines serr rc =>
      match scanLines lines with
      | .error e => ⟨.error e, []⟩
      | .ok (rt, et) => ⟨.ok (reduceToResponse uid elapsedMs st serr rc rt et), []⟩

/-- The request-body fields the helpers read.  provider, model and apiKey
are none when the key is absent from the body and some s when it is present
with string value s, so Python truthiness of such a field is: present and
nonempty. -/
structure QueryBody where
  prompt : String
  verbose : Bool
  provider : Option String
  model : Option String
  apiKey : Option String

/-- Python truthiness of body.get(k) for a string-valued optional field. -/
def strTruthy : Option String → Bool
  | none => false
  | some s => s != ""

/-- relay_server.py lines 299-307 (source name _build_cmd): the argument
list starts as [bin, entry, "--pipe", prompt] and "--verbose" is appended
after the prompt when the verbose field is truthy. -/
def build_cmd (bin entry : String) (b : QueryBody) : List String :=
  let cmd := [bin, entry, "--pipe", b.prompt]
  if b.verbose then cmd ++ ["--verbose"] else cmd

/-- An environment mapping, insertion ordered like a Python dict. -/
abbrev Env := List (String × String)

/-- dict lookup. -/
def envGet : Env → String → Option String
  | [], _ => none
  | (k, v) :: rest, key => if k = key then some v else envGet rest key

/-- dict.get with a default. -/
def envGetD (e : Env) (key dflt : String) : String :=
  (envGet e key).getD dflt

/-- dict assignment: replace in place if the key exists, else append. -/
def envSet : Env → String → String → Env
  | [], key, v => [(key, v)]
  | (k, w) :: rest, key, v =>
      if k = key then (k, v) :: rest else (k, w) :: envSet rest key v

/-- relay_server.py lines 327-331: the fixed provider-to-credential table. -/
def keyMap : Env :=
  [("anthropic", "ANTHROPIC_API_KEY"), ("openai", "OPENAI_API_KEY"),
   ("google", "GOOGLE_GENERATIVE_AI_API_KEY")]

/-- relay_server.py line 332: key_map.get(provider, "ANTHROPIC_API_KEY"). -/
def credVar (provider : String) : String :=
  envGetD keyMap provider "ANTHROPIC_API_KEY"

/-- relay_server.py lines 320-321: the copied environment after the
provider override. -/
def env1Of (procEnv : Env) (b : QueryBody) : Env :=
  if strTruthy b.provider then
    envSet procEnv "SPORTSCLAW_PROVIDER" (b.provider.getD "")
  else procEnv

/-- relay_server.py lines 322-323: the environment after the model
override. -/
def env2Of (procEnv : Env) (b : QueryBody) : Env :=
  if strTruthy b.model then
    envSet (env1Of procEnv b) "SPORTSCLAW_MODEL" (b.model.getD "")
  else env1Of procEnv b

/-- relay_server.py lines 324-333: the environment after the credential
override.  The provider used for the table lookup is
body.get("provider", env.get("SPORTSCLAW_PROVIDER", "anthropic")),
evaluated against the already-updated copy. -/
def env3Of (procEnv : Env) (b : QueryBody) : Env :=
  if strTruthy b.apiKey then
    envSet (env2Of procEnv b)
      (credVar (b.provider.getD (envGetD (env2Of procEnv b) "SPORTSCLAW_PROVIDER" "anthropic")))
      (b.apiKey.getD "")
  else env2Of procEnv b

/-- relay_server.py lines 310-335 (source name _build_env).  First
component: the environment handed to the subprocess, built from a copy of
the ambient environment (env = dict(os.environ), line 317) with the request
overrides applied in source order.  Second component: the ambient process
environment after the call; the source writes only to the copy, so the
ambient mapping is returned unchanged. -/
def build_env (procEnv : Env) (b : Option QueryBody) : Env × Env :=
  match b with
  | none => (procEnv, procEnv)
  | some body => (env3Of procEnv body, procEnv)

/-- The provider name the credential lookup resolves to, expressed against
the ambient environment. -/
def effProvider (procEnv : Env) (b : QueryBody) : String :=
  b.provider.getD (envGetD procEnv "SPORTSCLAW_PROVIDER" "anthropic")

/-- Following the specification of the sync reduction: the value that the
last event of the given type supplies for the given field of the given
line sequence (with the given default for a missing field; a JSON null
supplied value is Python None).  none means no event of that type occurs;
some none means the last such event supplies None. -/
def assignOf (ty field : String) (dflt : JVal) (l : RawLine) : Option (Option JVal) :=
  if l.text = "" then none
  else
    match l.parse with
    | some (.jobj fields) =>
        if isType fields ty then some (pyOpt (fieldD fields field dflt)) else none
    | _ => none

/-- The last assignment a scan in order would make: a later line wins. -/
def lastAssigned (ty field : String) (dflt : JVal) : List RawLine → Option (Option JVal)
  | [] => none
  | l :: ls =>
      match lastAssigned ty field dflt ls with
      | some v => some v
      | none => assignOf ty field dflt l

/-- A stdout line whose text json.loads parses to the object with type
error and error text boom. -/
def errBoomLine : RawLine :=
  ⟨"\x7b\"type\": \"error\", \"error\": \"boom\"\x7d",
   some (.jobj [("type", .jstr "error"), ("error", .jstr "boom")])⟩

/-- A stdout line that is valid JSON but not an object: json.loads yields
the number 42. -/
def bareNumberLine : RawLine := ⟨"42", some (.jnum 42)⟩

/-- A well-formed progress event line. -/
def progressLine : RawLine :=
  ⟨"\x7b\"type\": \"progress\"\x7d", some (.jobj [("type", .jstr "progress")])⟩

/-- An error event line whose error field is the empty string. -/
def emptyErrorLine : RawLine :=
  ⟨"\x7b\"type\": \"error\", \"error\": \"\"\x7d",
   some (.jobj [("type", .jstr "error"), ("error", .jstr "")])⟩

/-- A result event line with text ok. -/
def resultOkLine : RawLine :=
  ⟨"\x7b\"type\": \"result\", \"text\": \"ok\"\x7d",
   some (.jobj [("type", .jstr "result"), ("text", .jstr "ok")])⟩

/-- A second result event line with text later. -/
def resultLaterLine : RawLine :=
  ⟨"\x7b\"type\": \"result\", \"text\": \"later\"\x7d",
   some (.jobj [("type", .jstr "result"), ("text", .jstr "later")])⟩

/-- Five progress event lines. -/
def fiveProgress : List RawLine := List.replicate 5 progressLine

/-- Lines for exercising last-wins in the sync reduction. -/
def c8DemoLines : List RawLine := [resultOkLine, errBoomLine, resultLaterLine]

/-- A concrete ambient environment. -/
def demoEnv : Env := [("HOME", "/root"), ("SPORTSCLAW_PROVIDER", "anthropic")]

/-- A concrete request body with all overrides present. -/
def demoBody : QueryBody := ⟨"hi", false, some "openai", some "gpt-x", some "sk-test"⟩

/-- Claim C1 (code bug): with a child that itself emits an error event on
stdout and exits non-zero, query_stream forwards the child's error event
and then writes a second, synthesized terminal error event: the source only
tests returncode and never checks whether an error event was already
produced, contradicting its own comment and the claim. -/
theorem c1_duplicate_terminal_error :
    query_stream "u" 180 (.complete [errBoomLine] 1 "") =
      ([Action.write (.jobj [("type", .jstr "error"), ("error", .jstr "boom"),
          ("user_id", .jstr "u")]),
        Action.write (.jobj [("type", .jstr "error"), ("error", .jstr "Exit code 1"),
          ("returncode", .jnum 1)]),
        Action.writeEof], none) := rfl

/-- Claim C2 (code bug): on a sync timeout the endpoint does return 504
with status false and the timeout message and no text field, but the
handler performs no kill action: the source's TimeoutError clause only
builds the response, so the child process is never killed. -/
theorem c2_sync_timeout_no_kill :
    (query_sync "u" 1 0 .timeout).response =
      .ok ⟨504, .jobj [("status", .jbool false),
        ("error", .jstr "Query timed out after 1s")]⟩ ∧
    Action.kill ∉ (query_sync "u" 1 0 .timeout).actions ∧
    jHasField (.jobj [("status", .jbool false),
      ("error", .jstr "Query timed out after 1s")]) "text" = false := by
  refine ⟨rfl, ?_, rfl⟩
  simp [query_sync]

/-- Claim C3 (code bug): a stdout line that is valid JSON but not an object
(the bare number 42) does not become a debug event: in streaming mode the
user_id item assignment raises an uncaught TypeError, and in sync mode
event.get raises an uncaught AttributeError, so both handlers crash. -/
theorem c3_nonobject_line_raises :
    query_stream "u" 180 (.complete [bareNumberLine] 0 "") = ([], some PyExn.typeError) ∧
    query_sync "u" 180 0 (.completed "42" [bareNumberLine] "" 0) =
      ⟨.error PyExn.attributeError, []⟩ := ⟨rfl, rfl⟩

/-- Claim C4 counterexample: the sync timeout response carries neither
user_id nor elapsed_ms, and the non-zero-exit fallback response carries
elapsed_ms but no user_id, so not every terminal sync response includes
both fields. -/
theorem c4_missing_fields_cex :
    (query_sync "u" 1 0 .timeout).response =
      .ok ⟨504, .jobj [("status", .jbool false), ("error", .jstr (timeoutMsg 1))]⟩ ∧
    jHasField (.jobj [("status", .jbool false), ("error", .jstr (timeoutMsg 1))]) "user_id" = false ∧
    jHasField (.jobj [("status", .jbool false), ("error", .jstr (timeoutMsg 1))]) "elapsed_ms" = false ∧
    (query_sync "u" 180 5 (.completed "raw" [] "boom" 1)).response =
      .ok ⟨500, .jobj [("status", .jbool false), ("error", .jstr "boom"),
        ("stdout", .jstr "raw"), ("returncode", .jnum 1), ("elapsed_ms", .jnum 5)]⟩ ∧
    jHasField (.jobj [("status", .jbool false), ("error", .jstr "boom"),
      ("stdout", .jstr "raw"), ("returncode", .jnum 1), ("elapsed_ms", .jnum 5)]) "user_id" = false :=
  ⟨rfl, rfl, rfl, rfl, rfl⟩

/-- Claim C5 counterexample: after a client disconnect at event number 2
the relay kills the child, but it then still attempts one more transport
operation, the final write_eof, so it does not terminate without attempting
any further write to the transport. -/
theorem c5_write_after_disconnect_cex :
    query_stream "u" 180 (.disconnectAt 2 fiveProgress) =
      ([Action.write (.jobj [("type", .jstr "progress"), ("user_id", .jstr "u")]),
        Action.write (.jobj [("type", .jstr "progress"), ("user_id", .jstr "u")]),
        Action.kill, Action.writeEof], none) ∧
    (query_stream "u" 180 (.disconnectAt 2 fiveProgress)).1.drop 3 = [Action.writeEof] ∧
    Action.isTransportOp Action.writeEof = true := ⟨rfl, rfl, rfl⟩

/-- Claim C6 (code bug): a spawn failure (FileNotFoundError) matches no
except clause in either handler: the streaming handler writes no error
event and skips write_eof, and the sync handler produces no JSON response;
in both modes the exception escapes the request handler as an unhandled
fault. -/
theorem c6_spawn_failure_propagates :
    query_stream "u" 180 (.spawnFail PyExn.fileNotFound) = ([], some PyExn.fileNotFound) ∧
    query_sync "u" 180 0 (.spawnFail PyExn.fileNotFound) = ⟨.error PyExn.fileNotFound, []⟩ :=
  ⟨rfl, rfl⟩

/-- Claim C7 counterexample: with verbose requested the built command is
[bin, entry, pipe flag, prompt, verbose flag], whose last element is the
verbose flag, not the prompt. -/
theorem c7_prompt_not_last_cex :
    build_cmd "node" "/app/dist/index.js" ⟨"hi", true, none, none, none⟩ =
      ["node", "/app/dist/index.js", "--pipe", "hi", "--verbose"] ∧
    ["node", "/app/dist/index.js", "--pipe", "hi", "--verbose"].getLast? = some "--verbose" :=
  ⟨rfl, rfl⟩

/-- Claim C7 amended: the invocation is the binary, the entry argument, the
pipe-mode flag, then the prompt, and the verbose flag is appended after the
prompt when requested; the prompt is the last argument exactly when verbose
is not requested. -/
theorem c7_cmd_order_amended (bin entry : String) (b : QueryBody) :
    build_cmd bin entry b =
      [bin, entry, "--pipe", b.prompt] ++ (if b.verbose then ["--verbose"] else []) ∧
    (build_cmd bin entry b).getLast? =
      some (if b.verbose then "--verbose" else b.prompt) := by
  cases hb : b.verbose <;> simp [build_cmd, hb]

/-- Claim C10: in the sync reduction an error event whose error field is
the empty string is treated as if no error event had occurred: the
reduction with error_text the empty string equals the reduction with
error_text None, such an event indeed leaves the scan with the empty
string, and with a following result event the endpoint answers 200 with
the result text. -/
theorem c10_empty_error_falls_through (uid st serr : String) (ems rc : Int) (rt : Option JVal) :
    reduceToResponse uid ems st serr rc rt (some (.jstr "")) =
      reduceToResponse uid ems st serr rc rt none ∧
    scanLines [emptyErrorLine] = .ok (none, some (.jstr "")) ∧
    (query_sync uid 180 ems (.completed st [emptyErrorLine, resultOkLine] serr rc)).response =
      .ok ⟨200, .jobj [("status", .jbool true), ("text", .jstr "ok"),
        ("user_id", .jstr uid), ("elapsed_ms", .jnum ems)]⟩ := ⟨rfl, rfl, rfl⟩

/-- Dropping past a prefix of known length and one more element leaves the
tail. -/
theorem drop_length_add_one {α : Type} (xs ys : List α) (a : α) :
    (xs ++ a :: ys).drop (xs.length + 1) = ys := by
  induction xs with
  | nil => rfl
  | cons x xs ih => exact ih

/-- Claim C5 amended: on a client disconnect at event number k the relay
writes exactly the first k events, kills the child, writes no further
event, and attempts exactly one final write_eof on the transport before
returning without an exception. -/
theorem c5_disconnect_amended (uid : String) (t : Int) (lines : List RawLine) (k : Nat)
    (hk : k < (relayEvents uid lines).1.length) :
    query_stream uid t (.disconnectAt k lines) =
      (((relayEvents uid lines).1.take k).map Action.write ++ [Action.kill, Action.writeEof],
        none) ∧
    (query_stream uid t (.disconnectAt k lines)).1.drop (k + 1) = [Action.writeEof] := by
  have h1 : query_stream uid t (.disconnectAt k lines) =
      (((relayEvents uid lines).1.take k).map Action.write ++ [Action.kill, Action.writeEof],
        none) := by
    simp [query_stream, hk]
  refine ⟨h1, ?_⟩
  have hlen : (((relayEvents uid lines).1.take k).map Action.write).length = k := by
    simp [Nat.min_eq_left (Nat.le_of_lt hk)]
  have h2 := drop_length_add_one (((relayEvents uid lines).1.take k).map Action.write)
    [Action.writeEof] Action.kill
  rw [hlen] at h2
  rw [h1]
  exact h2

/-- Claim C5 amended, witness at a concrete disconnect scenario. -/
theorem c5_disconnect_amended_witness :
    2 < (relayEvents "u" fiveProgress).1.length ∧
    (query_stream "u" 180 (.disconnectAt 2 fiveProgress)).1.drop 3 = [Action.writeEof] :=
  ⟨by decide, (c5_disconnect_amended "u" 180 fiveProgress 2 (by decide)).2⟩

/-- Claim C4 amended: every completed sync response carries elapsed_ms, and
carries user_id exactly on the engine-error, engine-result and zero-exit
branches, not on the non-zero-exit fallback; the timeout response carries
neither user_id nor elapsed_ms. -/
theorem c4_fields_amended (uid st serr : String) (t ems rc : Int) (lines : List RawLine)
    (rt et : Option JVal) (h : scanLines lines = .ok (rt, et)) :
    (query_sync uid t ems (.completed st lines serr rc)).response =
      .ok (reduceToResponse uid ems st serr rc rt et) ∧
    jHasField (reduceToResponse uid ems st serr rc rt et).body "elapsed_ms" = true ∧
    jHasField (reduceToResponse uid ems st serr rc rt et).body "user_id" =
      (truthyOpt et || rt.isSome || rc == 0) ∧
    (query_sync uid t ems SyncOutcome.timeout).response =
      .ok ⟨504, .jobj [("status", .jbool false), ("error", .jstr (timeoutMsg t))]⟩ ∧
    jHasField (.jobj [("status", .jbool false), ("error", .jstr (timeoutMsg t))]) "user_id" = false ∧
    jHasField (.jobj [("status", .jbool false), ("error", .jstr (timeoutMsg t))]) "elapsed_ms" = false := by
  refine ⟨by simp [query_sync, h], ?_, ?_, rfl, rfl, rfl⟩
  · unfold reduceToResponse
    split_ifs <;> rfl
  · unfold reduceToResponse
    split_ifs with h1 h2 h3
    · simp only [h1, Bool.true_or]
      rfl
    · rw [Bool.not_eq_true] at h1
      simp only [h1, h2, Bool.false_or, Bool.true_or]
      rfl
    · rw [Bool.not_eq_true] at h1
      rw [Bool.not_eq_true] at h2
      simp only [h1, h2, h3, Bool.false_or, beq_self_eq_true, Bool.or_true]
      rfl
    · rw [Bool.not_eq_true] at h1
      rw [Bool.not_eq_true] at h2
      have h4 : (rc == 0) = false := by
        simpa using h3
      simp only [h1, h2, h4, Bool.false_or, Bool.or_false]
      rfl

/-- Claim C4 amended, witness at a concrete completed run. -/
theorem c4_fields_amended_witness :
    scanLines [resultOkLine] = .ok (some (.jstr "ok"), none) ∧
    jHasField (reduceToResponse "u" 5 "raw" "" 0 (some (.jstr "ok")) none).body "elapsed_ms" = true :=
  ⟨rfl, (c4_fields_amended "u" "raw" "" 180 5 0 [resultOkLine] (some (.jstr "ok")) none rfl).2.1⟩

/-- An event has at most one type: if its type field equals s it does not
also equal a different t. -/
theorem isType_unique (fields : List (String × JVal)) (s t : String)
    (hs : isType fields s = true) (hst : s ≠ t) : isType fields t = false := by
  unfold isType at hs ⊢
  cases hgf : getField fields "type" with
  | none => simp_all
  | some v =>
      cases v with
      | jstr u => simp_all [beq_eq_false_iff_ne]
      | jnull => simp_all
      | jbool b => simp_all
      | jnum n => simp_all
      | jarr elems => simp_all
      | jobj f => simp_all

/-- The scan loop of query_sync computes, for each of result_text and
error_text, exactly the value supplied by the last matching event, with the
initial accumulators as fallback. -/
theorem scanLinesAux_lastAssigned (lines : List RawLine) :
    ∀ rt0 et0 rt et, scanLinesAux rt0 et0 lines = .ok (rt, et) →
      rt = (lastAssigned "result" "text" (.jstr "") lines).getD rt0 ∧
      et = (lastAssigned "error" "error" (.jstr "Unknown error") lines).getD et0 := by
  induction lines with
  | nil =>
      intro rt0 et0 rt et h
      have h2 : rt0 = rt ∧ et0 = et := by
        simpa [scanLinesAux] using h
      simp [lastAssigned, h2.1, h2.2]
  | cons l ls ih =>
      intro rt0 et0 rt et h
      by_cases hte : l.text = ""
      · have h2 : scanLinesAux rt0 et0 ls = .ok (rt, et) := by
          simpa [scanLinesAux, hte] using h
        obtain ⟨hr, he⟩ := ih rt0 et0 rt et h2
        have ha1 : assignOf "result" "text" (.jstr "") l = none := by
          simp [assignOf, hte]
        have ha2 : assignOf "error" "error" (.jstr "Unknown error") l = none := by
          simp [assignOf, hte]
        refine ⟨?_, ?_⟩
        · rw [hr]
          cases hLA : lastAssigned "result" "text" (.jstr "") ls <;>
            simp [lastAssigned, hLA, ha1]
        · rw [he]
          cases hLA : lastAssigned "error" "error" (.jstr "Unknown error") ls <;>
            simp [lastAssigned, hLA, ha2]
      · cases hp : l.parse with
        | none =>
            have h2 : scanLinesAux rt0 et0 ls = .ok (rt, et) := by
              simpa [scanLinesAux, hte, hp] using h
            obtain ⟨hr, he⟩ := ih rt0 et0 rt et h2
            have ha1 : assignOf "result" "text" (.jstr "") l = none := by
              simp [assignOf, hte, hp]
            have ha2 : assignOf "error" "error" (.jstr "Unknown error") l = none := by
              simp [assignOf, hte, hp]
            refine ⟨?_, ?_⟩
            · rw [hr]
              cases hLA : lastAssigned "result" "text" (.jstr "") ls <;>
                simp [lastAssigned, hLA, ha1]
            · rw [he]
              cases hLA : lastAssigned "error" "error" (.jstr "Unknown error") ls <;>
                simp [lastAssigned, hLA, ha2]
        | some v =>
            cases v with
            | jobj fields =>
                by_cases hres : isType fields "result" = true
                · have h2 : scanLinesAux (pyOpt (fieldD fields "text" (.jstr ""))) et0 ls =
                      .ok (rt, et) := by
                    simpa [scanLinesAux, hte, hp, hres] using h
                  obtain ⟨hr, he⟩ := ih _ et0 rt et h2
                  have herr : isType fields "error" = false :=
                    isType_unique fields "result" "error" hres (by decide)
                  have ha1 : assignOf "result" "text" (.jstr "") l =
                      some (pyOpt (fieldD fields "text" (.jstr ""))) := by
                    simp [assignOf, hte, hp, hres]
                  have ha2 : assignOf "error" "error" (.jstr "Unknown error") l = none := by
                    simp [assignOf, hte, hp, herr]
                  refine ⟨?_, ?_⟩
                  · rw [hr]
                    cases hLA : lastAssigned "result" "text" (.jstr "") ls <;>
                      simp [lastAssigned, hLA, ha1]
                  · rw [he]
                    cases hLA : lastAssigned "error" "error" (.jstr "Unknown error") ls <;>
                      simp [lastAssigned, hLA, ha2]
                · by_cases herr : isType fields "error" = true
                  · have h2 : scanLinesAux rt0
                        (pyOpt (fieldD fields "error" (.jstr "Unknown error"))) ls =
                        .ok (rt, et) := by
                      simpa [scanLinesAux, hte, hp, hres, herr] using h
                    obtain ⟨hr, he⟩ := ih rt0 _ rt et h2
                    have ha1 : assignOf "result" "text" (.jstr "") l = none := by
                      simp [assignOf, hte, hp, hres]
                    have ha2 : assignOf "error" "error" (.jstr "Unknown error") l =
                        some (pyOpt (fieldD fields "error" (.jstr "Unknown error"))) := by
                      simp [assignOf, hte, hp, herr]
                    refine ⟨?_, ?_⟩
                    · rw [hr]
                      cases hLA : lastAssigned "result" "text" (.jstr "") ls <;>
                        simp [lastAssigned, hLA, ha1]
                    · rw [he]
                      cases hLA : lastAssigned "error" "error" (.jstr "Unknown error") ls <;>
                        simp [lastAssigned, hLA, ha2]
                  · have h2 : scanLinesAux rt0 et0 ls = .ok (rt, et) := by
                      simpa [scanLinesAux, hte, hp, hres, herr] using h
                    obtain ⟨hr, he⟩ := ih rt0 et0 rt et h2
                    have ha1 : assignOf "result" "text" (.jstr "") l = none := by
                      simp [assignOf, hte, hp, hres]
                    have ha2 : assignOf "error" "error" (.jstr "Unknown error") l = none := by
                      simp [assignOf, hte, hp, herr]
                    refine ⟨?_, ?_⟩
                    · rw [hr]
                      cases hLA : lastAssigned "result" "text" (.jstr "") ls <;>
                        simp [lastAssigned, hLA, ha1]
                    · rw [he]
                      cases hLA : lastAssigned "error" "error" (.jstr "Unknown error") ls <;>
                        simp [lastAssigned, hLA, ha2]
            | jnull => simp [scanLinesAux, hte, hp] at h
            | jbool b => simp [scanLinesAux, hte, hp] at h
            | jnum n => simp [scanLinesAux, hte, hp] at h
            | jstr s => simp [scanLinesAux, hte, hp] at h
            | jarr elems => simp [scanLinesAux, hte, hp] at h

/-- Claim C8 counterexample: with an error event (empty error text)
followed by a result event both present in the output, the sync response is
200 with the result text, not an error with HTTP 500, so error does not
always take precedence. -/
theorem c8_error_not_precedent_cex :
    scanLines [emptyErrorLine, resultOkLine] = .ok (some (.jstr "ok"), some (.jstr "")) ∧
    (query_sync "u" 180 3 (.completed "raw" [emptyErrorLine, resultOkLine] "" 0)).response =
      .ok ⟨200, .jobj [("status", .jbool true), ("text", .jstr "ok"),
        ("user_id", .jstr "u"), ("elapsed_ms", .jnum 3)]⟩ := ⟨rfl, rfl⟩

/-- Claim C8 amended: the scan is last-wins for both result and error
events (a JSON null supplied value counting as unset), and when both kinds
of event are present, error takes precedence with HTTP 500 exactly when the
final error text is truthy; otherwise a present result supplies a 200
response with its text. -/
theorem c8_reduction_amended (uid st serr : String) (t ems rc : Int) (lines : List RawLine)
    (rt et : Option JVal) (h : scanLines lines = .ok (rt, et)) :
    rt = (lastAssigned "result" "text" (.jstr "") lines).getD none ∧
    et = (lastAssigned "error" "error" (.jstr "Unknown error") lines).getD none ∧
    (truthyOpt et = true →
      (query_sync uid t ems (.completed st lines serr rc)).response =
        .ok ⟨500, .jobj [("status", .jbool false), ("error", et.getD .jnull),
          ("user_id", .jstr uid), ("elapsed_ms", .jnum ems)]⟩) ∧
    (truthyOpt et = false → rt.isSome = true →
      (query_sync uid t ems (.completed st lines serr rc)).response =
        .ok ⟨200, .jobj [("status", .jbool true), ("text", rt.getD .jnull),
          ("user_id", .jstr uid), ("elapsed_ms", .jnum ems)]⟩) := by
  obtain ⟨hr, he⟩ := scanLinesAux_lastAssigned lines none none rt et h
  refine ⟨hr, he, ?_, ?_⟩
  · intro hT
    simp [query_sync, h, reduceToResponse, hT]
  · intro hF hS
    simp [query_sync, h, reduceToResponse, hF, hS]

/-- Claim C8 amended, witness on a run with two result events and one
truthy error event: the later result wins the scan and the truthy error
takes precedence in the response. -/
theorem c8_reduction_amended_witness :
    scanLines c8DemoLines = .ok (some (.jstr "later"), some (.jstr "boom")) ∧
    (query_sync "u" 180 7 (.completed "raw" c8DemoLines "" 0)).response =
      .ok ⟨500, .jobj [("status", .jbool false), ("error", .jstr "boom"),
        ("user_id", .jstr "u"), ("elapsed_ms", .jnum 7)]⟩ :=
  ⟨rfl, (c8_reduction_amended "u" "raw" "" 180 7 0 c8DemoLines (some (.jstr "later"))
      (some (.jstr "boom")) rfl).2.2.1 rfl⟩

/-- Looking up the key just set yields the new value. -/
theorem envGet_envSet_self (e : Env) (k v : String) :
    envGet (envSet e k v) k = some v := by
  induction e with
  | nil => simp [envSet, envGet]
  | cons p rest ih =>
      obtain ⟨k0, v0⟩ := p
      by_cases hk : k0 = k
      · subst hk
        simp [envSet, envGet]
      · simp [envSet, envGet, hk, ih]

/-- Setting one key leaves lookups of other keys unchanged. -/
theorem envGet_envSet_ne (e : Env) (k k2 v : String) (h : k2 ≠ k) :
    envGet (envSet e k v) k2 = envGet e k2 := by
  induction e with
  | nil =>
      have h2 : k ≠ k2 := Ne.symm h
      simp [envSet, envGet, h2]
  | cons p rest ih =>
      obtain ⟨k0, v0⟩ := p
      by_cases hk : k0 = k
      · have h3 : k ≠ k2 := Ne.symm h
        simp [envSet, envGet, hk, h3]
      · simp [envSet, envGet, hk, ih]

/-- Lookup through a conditional single-key update. -/
theorem envGet_condSet (c : Bool) (e : Env) (kk v k : String) :
    envGet (if c then envSet e kk v else e) k =
      if c = true ∧ k = kk then some v else envGet e k := by
  cases c
  · simp
  · by_cases hk : k = kk
    · subst hk
      simp [envGet_envSet_self]
    · simp [hk, envGet_envSet_ne e kk k v hk]

/-- Lookup after the provider override. -/
theorem envGet_env1Of (procEnv : Env) (b : QueryBody) (k : String) :
    envGet (env1Of procEnv b) k =
      if strTruthy b.provider = true ∧ k = "SPORTSCLAW_PROVIDER" then some (b.provider.getD "")
      else envGet procEnv k := by
  unfold env1Of
  exact envGet_condSet (strTruthy b.provider) procEnv "SPORTSCLAW_PROVIDER" (b.provider.getD "") k

/-- Lookup after the model override. -/
theorem envGet_env2Of (procEnv : Env) (b : QueryBody) (k : String) :
    envGet (env2Of procEnv b) k =
      if strTruthy b.model = true ∧ k = "SPORTSCLAW_MODEL" then some (b.model.getD "")
      else envGet (env1Of procEnv b) k := by
  unfold env2Of
  exact envGet_condSet (strTruthy b.model) (env1Of procEnv b) "SPORTSCLAW_MODEL" (b.model.getD "") k

/-- The provider name resolved against the updated copy equals the one
resolved against the ambient environment. -/
theorem providerArg_eq (procEnv : Env) (b : QueryBody) :
    b.provider.getD (envGetD (env2Of procEnv b) "SPORTSCLAW_PROVIDER" "anthropic") =
      effProvider procEnv b := by
  cases hp : b.provider with
  | some p => simp [effProvider, hp]
  | none =>
      unfold effProvider envGetD
      rw [hp]
      simp only [Option.getD_none]
      congr 1
      rw [envGet_env2Of, envGet_env1Of]
      have hne : ("SPORTSCLAW_PROVIDER" : String) ≠ "SPORTSCLAW_MODEL" := by decide
      simp [hne, hp, strTruthy]

/-- Lookup after the credential override. -/
theorem envGet_env3Of (procEnv : Env) (b : QueryBody) (k : String) :
    envGet (env3Of procEnv b) k =
      if strTruthy b.apiKey = true ∧ k = credVar (effProvider procEnv b) then some (b.apiKey.getD "")
      else envGet (env2Of procEnv b) k := by
  unfold env3Of
  rw [providerArg_eq]
  exact envGet_condSet (strTruthy b.apiKey) (env2Of procEnv b)
    (credVar (effProvider procEnv b)) (b.apiKey.getD "") k

/-- The credential table maps every provider to one of three known
variable names. -/
theorem credVar_mem (p : String) :
    credVar p = "ANTHROPIC_API_KEY" ∨ credVar p = "OPENAI_API_KEY" ∨
      credVar p = "GOOGLE_GENERATIVE_AI_API_KEY" := by
  unfold credVar envGetD keyMap
  simp only [envGet]
  split_ifs <;> simp

/-- Providers outside the table fall back to the default credential
variable. -/
theorem credVar_unknown (p : String) (h1 : p ≠ "anthropic") (h2 : p ≠ "openai")
    (h3 : p ≠ "google") : credVar p = "ANTHROPIC_API_KEY" := by
  unfold credVar envGetD keyMap
  simp only [envGet]
  rw [if_neg (fun hh => h1 hh.symm), if_neg (fun hh => h2 hh.symm),
    if_neg (fun hh => h3 hh.symm)]
  rfl

/-- A truthy optional string field round-trips through getD. -/
theorem strTruthy_getD (o : Option String) (h : strTruthy o = true) : some (o.getD "") = o := by
  cases o with
  | none => simp [strTruthy] at h
  | some s => rfl

/-- Claim C9: building the subprocess environment applies exactly the
request-scoped overrides to a fresh copy of the ambient environment: the
ambient mapping is returned unchanged, every key other than the provider,
model and resolved credential variables keeps its ambient value, a truthy
provider, model or api key sets its variable, the credential variable is
the one the table assigns to the effective provider, and unknown providers
fall back to the default credential variable. -/
theorem c9_build_env_overrides (procEnv : Env) (b : QueryBody) :
    (build_env procEnv (some b)).2 = procEnv ∧
    (∀ k, k ≠ "SPORTSCLAW_PROVIDER" → k ≠ "SPORTSCLAW_MODEL" →
      k ≠ credVar (effProvider procEnv b) →
      envGet (build_env procEnv (some b)).1 k = envGet procEnv k) ∧
    (strTruthy b.provider = true →
      envGet (build_env procEnv (some b)).1 "SPORTSCLAW_PROVIDER" = b.provider) ∧
    (strTruthy b.model = true →
      envGet (build_env procEnv (some b)).1 "SPORTSCLAW_MODEL" = b.model) ∧
    (strTruthy b.apiKey = true →
      envGet (build_env procEnv (some b)).1 (credVar (effProvider procEnv b)) = b.apiKey) ∧
    (∀ p : String, p ≠ "anthropic" → p ≠ "openai" → p ≠ "google" →
      credVar p = "ANTHROPIC_API_KEY") := by
  have hbe : (build_env procEnv (some b)).1 = env3Of procEnv b := rfl
  refine ⟨rfl, ?_, ?_, ?_, ?_, ?_⟩
  · intro k hk1 hk2 hk3
    rw [hbe, envGet_env3Of, envGet_env2Of, envGet_env1Of]
    simp [hk1, hk2, hk3]
  · intro hp
    rw [hbe, envGet_env3Of, envGet_env2Of, envGet_env1Of]
    have hne1 : ("SPORTSCLAW_PROVIDER" : String) ≠ credVar (effProvider procEnv b) := by
      rcases credVar_mem (effProvider procEnv b) with h | h | h <;> rw [h] <;> decide
    have hne2 : ("SPORTSCLAW_PROVIDER" : String) ≠ "SPORTSCLAW_MODEL" := by decide
    simp [hne1, hne2, hp, strTruthy_getD _ hp]
  · intro hm
    rw [hbe, envGet_env3Of, envGet_env2Of]
    have hne1 : ("SPORTSCLAW_MODEL" : String) ≠ credVar (effProvider procEnv b) := by
      rcases credVar_mem (effProvider procEnv b) with h | h | h <;> rw [h] <;> decide
    simp [hne1, hm, strTruthy_getD _ hm]
  · intro ha
    rw [hbe, envGet_env3Of]
    simp [ha, strTruthy_getD _ ha]
  · intro p h1 h2 h3
    exact credVar_unknown p h1 h2 h3

/-- Claim C9, witness on a concrete ambient environment and request body:
the ambient mapping is unchanged and the api key lands in the credential
variable of the requested provider. -/
theorem c9_build_env_overrides_witness :
    strTruthy demoBody.apiKey = true ∧
    (build_env demoEnv (some demoBody)).2 = demoEnv ∧
    envGet (build_env demoEnv (some demoBody)).1 (credVar (effProvider demoEnv demoBody)) =
      some "sk-test" :=
  ⟨rfl, (c9_build_env_overrides demoEnv demoBody).1,
    (c9_build_env_overrides demoEnv demoBody).2.2.2.2.1 rfl⟩

end Relay
